import Mathlib

/-!
Shallow embedding of the route-finder widget (two source variants: one with
autocomplete inputs, one with plain text inputs; their Directions component is
identical).  The embedding models:

- the service data (routes, legs, distance/duration display texts);
- the hook state of the Directions component (routes, routeIndex, the props
  origin/destination, readiness of the directions service and renderer) and
  its operations: the route-request resolution handler, the renderer
  directions_changed listener, the alternative-selection click, and a commit
  of the draft pair (the Find Route button combined with the route-fetch
  effect, whose dependency array is compared with Object.is by React, so a
  state update to an identical string value does not re-run the effect);
- the rendered panel of the selected alternative;
- the input callbacks of the two LocationInput variants;
- the mount/unmount listener and overlay lifecycle of AutocompleteInput and
  of the Directions component.
-/

namespace RouteFinder

/-- A distance or duration value as returned by the directions service; only
its preformatted display text is consumed by the widget. -/
structure TextValue where
  text : String
deriving Repr, DecidableEq

/-- One leg of a route alternative, with the fields the panel reads:
start and end address and optional distance/duration display values. -/
structure DirectionsLeg where
  start_address : String
  end_address : String
  distance : Option TextValue
  duration : Option TextValue
deriving Repr, DecidableEq

/-- One route alternative: a summary label and its legs. -/
structure DirectionsRoute where
  summary : String
  legs : List DirectionsLeg
deriving Repr, DecidableEq

/-- The payload of a resolved routing request or of a renderer
getDirections call: the ordered list of route alternatives. -/
structure DirectionsResult where
  routes : List DirectionsRoute
deriving Repr, DecidableEq

/-- JS truthiness of a nullable string value: null and the empty string are
falsy, every other string is truthy. -/
def isTruthy : Option String → Bool
  | none => false
  | some s => s != ""

/-- Hook state and props of the Directions component.  serviceReady and
rendererReady record whether the directionsService and directionsRenderer
state variables have been populated; origin and destination are the props
committed by Root; routes and routeIndex are the RouteSet and
SelectedRouteIndex state; fetchCount counts issued routing requests
(calls of directionsService.route); rendererRouteIndex mirrors the last
renderer.setRouteIndex call of the highlight effect. -/
structure Directions where
  serviceReady : Bool
  rendererReady : Bool
  origin : Option String
  destination : Option String
  routes : List DirectionsRoute
  routeIndex : Nat
  fetchCount : Nat
  rendererRouteIndex : Nat
deriving Repr, DecidableEq

/-- The resolution handler of a routing request: the renderer receives the
directions, setRoutes replaces the RouteSet with the response routes, and
setRouteIndex resets the index to 0; the highlight effect then re-runs iff
routeIndex actually changed, calling renderer.setRouteIndex when the
renderer is present. -/
def applyRouteResponse (c : Directions) (r : DirectionsResult) : Directions :=
  { c with
    routes := r.routes
    routeIndex := 0
    rendererRouteIndex :=
      if c.routeIndex != 0 && c.rendererReady then 0 else c.rendererRouteIndex }

/-- The directions_changed listener of the renderer: it re-reads the
renderer directions and, when a result is present, replaces the RouteSet
with its routes; routeIndex is not touched by this handler. -/
def applyDirectionsChanged (c : Directions) (result : Option DirectionsResult) : Directions :=
  match result with
  | some r => { c with routes := r.routes }
  | none => c

/-- Clicking the button of alternative i in the Other Routes list:
setRouteIndex i.  A state update to the current value bails out without a
re-render; otherwise the highlight effect re-runs (its dependencies are
routeIndex and the renderer) and calls renderer.setRouteIndex when the
renderer is present. -/
def clickRoute (c : Directions) (i : Nat) : Directions :=
  if c.routeIndex = i then c
  else
    { c with
      routeIndex := i
      rendererRouteIndex := if c.rendererReady then i else c.rendererRouteIndex }

/-- The guard of the route-fetch effect: it issues a request only when the
directions service, the renderer and both committed locations are present
(JS truthiness on the two strings). -/
def fetchGuard (c : Directions) : Bool :=
  c.serviceReady && c.rendererReady && isTruthy c.origin && isTruthy c.destination

/-- One commit of the draft pair: the Find Route click calls the two Root
setters with the draft values, unconditionally and without validation, which
replace the origin and destination props; the route-fetch effect then
re-runs iff one of its dependencies changed under Object.is (for string
values: value equality, so a commit of the identical pair changes no
dependency and the effect does not re-run), and on a re-run it issues a
routing request iff its guard passes. -/
def commit (c : Directions) (inputOrigin inputDestination : Option String) : Directions :=
  if c.origin = inputOrigin ∧ c.destination = inputDestination then c
  else if fetchGuard { c with origin := inputOrigin, destination := inputDestination } then
    { c with
      origin := inputOrigin
      destination := inputDestination
      fetchCount := c.fetchCount + 1 }
  else { c with origin := inputOrigin, destination := inputDestination }

/-- The validity invariant of SelectedRouteIndex: whenever the RouteSet is
non-empty the index is within range. -/
def indexInvariant (c : Directions) : Prop :=
  c.routes ≠ [] → c.routeIndex < c.routes.length

/-- The fields shown by the route panel for the selected alternative, plus
the Other Routes list of summaries. -/
structure Display where
  summaryText : String
  startDisplay : String
  endDisplay : String
  distanceText : Option String
  durationText : Option String
  otherRoutes : List String
deriving Repr, DecidableEq

/-- The characters before the first comma of a character list, or the whole
list when it holds no comma. -/
def beforeComma : List Char → List Char
  | [] => []
  | c :: rest => if c = ',' then [] else c :: beforeComma rest

/-- The JS expression s.split(",")[0]: the text before the first comma, or
the whole string when it holds no comma (split always yields at least one
element, so index 0 is defined for every string). -/
def firstSegment (s : String) : String :=
  String.mk (beforeComma s.data)

/-- The render body of the Directions component: selected is
routes[routeIndex], leg is selected?.legs[0]; when leg is absent the
component returns null, otherwise it shows the selected summary, the first
comma-delimited segment of the start and end addresses of the leg, the
distance and duration display texts as supplied, and the list of all route
summaries. -/
def renderDirections (c : Directions) : Option Display :=
  match c.routes[c.routeIndex]? with
  | none => none
  | some selected =>
    match selected.legs.head? with
    | none => none
    | some leg =>
      some
        { summaryText := selected.summary
          startDisplay := firstSegment leg.start_address
          endDisplay := firstSegment leg.end_address
          distanceText := leg.distance.map TextValue.text
          durationText := leg.duration.map TextValue.text
          otherRoutes := c.routes.map DirectionsRoute.summary }

/-- A place as returned by autocomplete.getPlace: only its formatted
address is consumed. -/
structure PlaceResult where
  formatted_address : Option String
deriving Repr, DecidableEq

/-- The place_changed listener of the autocomplete variant: it reads the
place and invokes onPlaceSelected with the formatted address exactly when
the place is present and its formatted_address is JS-truthy (present and
non-empty).  The returned value is the argument of the invocation, none
when the callback is not invoked. -/
def placeChangedHandler (place : Option PlaceResult) : Option String :=
  match place with
  | none => none
  | some p =>
    match p.formatted_address with
    | none => none
    | some a => if a = "" then none else some a

/-- The text field of the autocomplete variant carries no change handler:
a keystroke invokes no callback. -/
def autocompleteOnChange (_text : String) : Option String :=
  none

/-- The change handler of the plain-input variant: every change event
invokes the draft setter with the raw field text. -/
def plainOnChange (text : String) : Option String :=
  some text

/-- The Find Route click handler of ControlPane: it forwards both draft
values to the committed-state setters of the parent, unconditionally. -/
def submitDrafts (inputOrigin inputDestination : Option String) :
    Option String × Option String :=
  (inputOrigin, inputDestination)

/-- Lifecycle state of one AutocompleteInput: whether the places library is
ready and how many place_changed listeners are registered on its
autocomplete object. -/
structure AutocompleteLifecycle where
  placesReady : Bool
  placeChangedListeners : Nat
deriving Repr, DecidableEq

/-- The setup effect of AutocompleteInput: when the places library and the
input element are present it creates the autocomplete object and registers
a place_changed listener; it returns no cleanup function. -/
def autocompleteMountEffect (a : AutocompleteLifecycle) : AutocompleteLifecycle :=
  if a.placesReady then
    { a with placeChangedListeners := a.placeChangedListeners + 1 }
  else a

/-- Unmounting AutocompleteInput: React runs the cleanup functions its
effects returned; the setup effect returned none, so no listener is
removed. -/
def autocompleteUnmount (a : AutocompleteLifecycle) : AutocompleteLifecycle :=
  a

/-- Listener and overlay lifecycle state of the Directions component.
changeListeners counts directions_changed listeners on the renderer;
listenerCleanupPending records that the listener effect ran past its guard
(so its remove-listener cleanup is registered); overlayAttached records
whether the renderer is attached to the map; fetchCleanupPending records
that the route-fetch effect ran past its guard (so its setMap-null cleanup
is registered). -/
structure DirectionsLifecycle where
  changeListeners : Nat
  listenerCleanupPending : Bool
  overlayAttached : Bool
  fetchCleanupPending : Bool
deriving Repr, DecidableEq

/-- Unmounting the Directions component: React runs every registered
cleanup.  The listener-effect cleanup removes the directions_changed
listener it registered; the fetch-effect cleanup calls setMap null,
detaching the overlay; an effect run that early-returned registered no
cleanup and nothing runs for it. -/
def directionsUnmount (c : DirectionsLifecycle) : DirectionsLifecycle :=
  { changeListeners :=
      if c.listenerCleanupPending then c.changeListeners - 1 else c.changeListeners
    listenerCleanupPending := false
    overlayAttached := if c.fetchCleanupPending then false else c.overlayAttached
    fetchCleanupPending := false }

/-- A leg of the example route between Monas and Kota Tua. -/
def legMonasKotaTua : DirectionsLeg :=
  { start_address := "Monas, Gambir, Central Jakarta"
    end_address := "Kota Tua, West Jakarta"
    distance := some ⟨"7.5 km"⟩
    duration := some ⟨"25 mins"⟩ }

/-- Example alternative via Jalan Sudirman. -/
def routeSudirman : DirectionsRoute :=
  { summary := "Jl. Sudirman", legs := [legMonasKotaTua] }

/-- Example alternative via Jalan Thamrin. -/
def routeThamrin : DirectionsRoute :=
  { summary := "Jl. Thamrin", legs := [legMonasKotaTua] }

/-- Example alternative via Jalan Gatot Subroto. -/
def routeGatotSubroto : DirectionsRoute :=
  { summary := "Jl. Gatot Subroto", legs := [legMonasKotaTua] }

/-- A Directions component displaying a two-alternative RouteSet with the
second alternative selected, after one completed fetch. -/
def displayedState : Directions :=
  { serviceReady := true
    rendererReady := true
    origin := some "Monas, Jakarta"
    destination := some "Kota Tua, Jakarta"
    routes := [routeSudirman, routeThamrin]
    routeIndex := 1
    fetchCount := 1
    rendererRouteIndex := 1 }

/-- An AutocompleteInput mounted with the places library ready and no
listener yet. -/
def freshAutocomplete : AutocompleteLifecycle :=
  { placesReady := true, placeChangedListeners := 0 }

/-- The Directions lifecycle while a RouteSet is displayed: the
directions_changed listener is registered with its cleanup pending, and the
fetch effect has attached the overlay with its cleanup pending. -/
def displayedLifecycle : DirectionsLifecycle :=
  { changeListeners := 1
    listenerCleanupPending := true
    overlayAttached := true
    fetchCleanupPending := true }

/-- The Directions component in its initial state: nothing ready, nothing
committed, empty RouteSet. -/
def idleState : Directions :=
  { serviceReady := false
    rendererReady := false
    origin := none
    destination := none
    routes := []
    routeIndex := 0
    fetchCount := 0
    rendererRouteIndex := 0 }

/-- A route alternative with an empty leg list. -/
def routeNoLegs : DirectionsRoute :=
  { summary := "Jl. Sudirman", legs := [] }

/-- A state whose SelectedRouteIndex points past the end of the RouteSet. -/
def staleIndexState : Directions :=
  { displayedState with routes := [routeSudirman], routeIndex := 1 }

/-- A state whose selected alternative has no legs. -/
def leglessState : Directions :=
  { displayedState with routes := [routeNoLegs], routeIndex := 0 }

end RouteFinder

namespace RouteFinder

/-- Helper: a commit never changes the RouteSet or the SelectedRouteIndex. -/
theorem commit_routes_routeIndex (c : Directions) (o d : Option String) :
    (commit c o d).routes = c.routes ∧ (commit c o d).routeIndex = c.routeIndex := by
  unfold commit
  split
  · exact ⟨rfl, rfl⟩
  · split <;> exact ⟨rfl, rfl⟩

/-- C1 counterexample: with the second of two alternatives selected, a new
RouteSet arriving through the renderer directions_changed event does not
reset SelectedRouteIndex to 0, and the index is not below the new RouteSet
length. -/
theorem C1_counterexample :
    (applyDirectionsChanged displayedState (some ⟨[routeGatotSubroto]⟩)).routeIndex ≠ 0 ∧
    ¬ (applyDirectionsChanged displayedState (some ⟨[routeGatotSubroto]⟩)).routeIndex <
        (applyDirectionsChanged displayedState (some ⟨[routeGatotSubroto]⟩)).routes.length := by
  decide

/-- C1 amended: when a routing request resolves, SelectedRouteIndex is reset
to 0 and, the arriving RouteSet being non-empty, is below its length; a
RouteSet arriving through the renderer directions_changed event leaves
SelectedRouteIndex unchanged. -/
theorem C1_new_routeset_index (c : Directions) (r : DirectionsResult)
    (h : r.routes ≠ []) :
    (applyRouteResponse c r).routeIndex = 0 ∧
    (applyRouteResponse c r).routeIndex < (applyRouteResponse c r).routes.length ∧
    ∀ result : Option DirectionsResult,
      (applyDirectionsChanged c result).routeIndex = c.routeIndex := by
  refine ⟨rfl, ?_, ?_⟩
  · simpa [applyRouteResponse] using List.length_pos.mpr h
  · intro result
    cases result <;> rfl

/-- C1 witness: the amended statement evaluated on the displayed state and a
one-alternative response. -/
theorem C1_new_routeset_index_witness :
    (applyRouteResponse displayedState ⟨[routeGatotSubroto]⟩).routeIndex <
      (applyRouteResponse displayedState ⟨[routeGatotSubroto]⟩).routes.length :=
  (C1_new_routeset_index displayedState ⟨[routeGatotSubroto]⟩ (by decide)).2.1

/-- C2 counterexample: the index-validity invariant holds of the displayed
state but fails after a renderer directions_changed event that shrinks the
RouteSet to one alternative while the second was selected. -/
theorem C2_counterexample :
    indexInvariant displayedState ∧
    ¬ indexInvariant (applyDirectionsChanged displayedState (some ⟨[routeGatotSubroto]⟩)) :=
  ⟨fun _ => by decide, fun hinv => absurd (hinv (by decide)) (by decide)⟩

/-- C2 amended: the invariant (RouteSet non-empty implies SelectedRouteIndex
below its length) is preserved by route-response arrival, by selection of an
in-range alternative, and by commits; a renderer directions_changed event
preserves it exactly under the proviso that the replacement RouteSet is
empty or longer than the current SelectedRouteIndex. -/
theorem C2_index_invariant_preservation (c : Directions) (h : indexInvariant c) :
    (∀ r : DirectionsResult, indexInvariant (applyRouteResponse c r)) ∧
    (∀ i, i < c.routes.length → indexInvariant (clickRoute c i)) ∧
    (∀ o d, indexInvariant (commit c o d)) ∧
    (∀ r : DirectionsResult, (r.routes = [] ∨ c.routeIndex < r.routes.length) →
      indexInvariant (applyDirectionsChanged c (some r))) := by
  refine ⟨?_, ?_, ?_, ?_⟩
  · intro r hne
    simp only [applyRouteResponse] at hne ⊢
    exact List.length_pos.mpr hne
  · intro i hi
    unfold clickRoute
    by_cases hbail : c.routeIndex = i
    · intro _
      simpa [hbail] using hbail ▸ hi
    · intro _
      simpa [hbail] using hi
  · intro o d hne
    have hframe := commit_routes_routeIndex c o d
    rw [hframe.1, hframe.2]
    exact h (hframe.1 ▸ hne)
  · intro r hr hne
    simp only [applyDirectionsChanged] at hne ⊢
    rcases hr with hr | hr
    · exact absurd hr hne
    · exact hr

/-- C2 witness: the preservation statement evaluated on the displayed state
for a three-alternative directions_changed replacement. -/
theorem C2_index_invariant_preservation_witness :
    indexInvariant
      (applyDirectionsChanged displayedState
        (some ⟨[routeSudirman, routeThamrin, routeGatotSubroto]⟩)) :=
  (C2_index_invariant_preservation displayedState (fun _ => by decide)).2.2.2
    ⟨[routeSudirman, routeThamrin, routeGatotSubroto]⟩ (Or.inr (by decide))

/-- C3 counterexample: with a displayed route for the committed pair, a
fresh commit of the textually identical pair (both drafts set and truthy)
leaves the whole state unchanged: no new routing request is issued, the
fetch count stays at its previous value instead of increasing. -/
theorem C3_counterexample :
    isTruthy (some "Monas, Jakarta") = true ∧
    isTruthy (some "Kota Tua, Jakarta") = true ∧
    commit displayedState (some "Monas, Jakarta") (some "Kota Tua, Jakarta") = displayedState ∧
    (commit displayedState (some "Monas, Jakarta") (some "Kota Tua, Jakarta")).fetchCount =
      displayedState.fetchCount := by
  decide

/-- C3 amended: a commit of a both-set pair issues exactly one new routing
request when the committed pair changes (service and renderer ready); a
commit whose pair equals the current committed pair changes no effect
dependency and leaves the state unchanged, issuing no request. -/
theorem C3_commit_refetch (c : Directions) (o d : String)
    (hs : c.serviceReady = true) (hr : c.rendererReady = true)
    (ho : o ≠ "") (hd : d ≠ "")
    (hnew : ¬ (c.origin = some o ∧ c.destination = some d)) :
    (commit c (some o) (some d)).fetchCount = c.fetchCount + 1 ∧
    ∀ c2 : Directions, c2.origin = some o → c2.destination = some d →
      commit c2 (some o) (some d) = c2 := by
  constructor
  · have hg : fetchGuard { c with origin := some o, destination := some d } = true := by
      simp [fetchGuard, isTruthy, hs, hr, bne_iff_ne, ho, hd]
    unfold commit
    rw [if_neg hnew, if_pos hg]
  · intro c2 h1 h2
    unfold commit
    rw [if_pos ⟨h1, h2⟩]

/-- C3 witness: committing a changed origin from the displayed state
increments the fetch count by exactly one. -/
theorem C3_commit_refetch_witness :
    (commit displayedState (some "Blok M, Jakarta") (some "Kota Tua, Jakarta")).fetchCount =
      displayedState.fetchCount + 1 :=
  (C3_commit_refetch displayedState "Blok M, Jakarta" "Kota Tua, Jakarta" rfl rfl
    (by decide) (by decide) (by decide)).1

/-- C4 confirmed: with a RouteSet displayed (renderer present, highlight in
sync), clicking alternative i sets SelectedRouteIndex and the renderer
highlight to i and changes nothing else: RouteSet, committed pair and fetch
count are untouched, and the new index is within range. -/
theorem C4_selection_frame (c : Directions) (i : Nat)
    (hi : i < c.routes.length) (hr : c.rendererReady = true)
    (hsync : c.rendererRouteIndex = c.routeIndex) :
    (clickRoute c i).routeIndex = i ∧
    (clickRoute c i).rendererRouteIndex = i ∧
    (clickRoute c i).routes = c.routes ∧
    (clickRoute c i).origin = c.origin ∧
    (clickRoute c i).destination = c.destination ∧
    (clickRoute c i).fetchCount = c.fetchCount ∧
    (clickRoute c i).routeIndex < (clickRoute c i).routes.length := by
  unfold clickRoute
  by_cases hbail : c.routeIndex = i
  · simp [hbail, hsync, hi]
  · simp [hbail, hr, hi]

/-- C4 witness: selecting alternative 0 from the displayed state. -/
theorem C4_selection_frame_witness :
    (clickRoute displayedState 0).routeIndex = 0 ∧
    (clickRoute displayedState 0).rendererRouteIndex = 0 ∧
    (clickRoute displayedState 0).routes = displayedState.routes ∧
    (clickRoute displayedState 0).origin = displayedState.origin ∧
    (clickRoute displayedState 0).destination = displayedState.destination ∧
    (clickRoute displayedState 0).fetchCount = displayedState.fetchCount ∧
    (clickRoute displayedState 0).routeIndex < (clickRoute displayedState 0).routes.length :=
  C4_selection_frame displayedState 0 (by decide) rfl rfl

/-- C5 confirmed: the submit click forwards both draft values to the
committed-state setters unconditionally (whatever they are, including
absent ones), the committed props afterwards hold exactly the drafts, and
whenever the committed destination is not truthy the fetch guard blocks the
request: fetch count, RouteSet and SelectedRouteIndex are unchanged. -/
theorem C5_submit_unconditional_idle (c : Directions) (o d : Option String) :
    submitDrafts o d = (o, d) ∧
    (commit c o d).origin = o ∧
    (commit c o d).destination = d ∧
    (isTruthy d = false →
      (commit c o d).fetchCount = c.fetchCount ∧
      (commit c o d).routes = c.routes ∧
      (commit c o d).routeIndex = c.routeIndex) := by
  refine ⟨rfl, ?_, ?_, ?_⟩
  · unfold commit
    by_cases heq : c.origin = o ∧ c.destination = d
    · rw [if_pos heq]; exact heq.1
    · rw [if_neg heq]; split <;> rfl
  · unfold commit
    by_cases heq : c.origin = o ∧ c.destination = d
    · rw [if_pos heq]; exact heq.2
    · rw [if_neg heq]; split <;> rfl
  · intro hdf
    have hg : fetchGuard { c with origin := o, destination := d } = false := by
      simp [fetchGuard, hdf]
    unfold commit
    by_cases heq : c.origin = o ∧ c.destination = d
    · rw [if_pos heq]; exact ⟨rfl, rfl, rfl⟩
    · rw [if_neg heq, if_neg (by simp [hg])]; exact ⟨rfl, rfl, rfl⟩

/-- C5 witness: submitting with origin set and destination unset from the
initial state leaves the fetch count, RouteSet and index untouched. -/
theorem C5_submit_unconditional_idle_witness :
    (commit idleState (some "Monas, Jakarta") none).fetchCount = idleState.fetchCount ∧
    (commit idleState (some "Monas, Jakarta") none).routes = idleState.routes ∧
    (commit idleState (some "Monas, Jakarta") none).routeIndex = idleState.routeIndex :=
  (C5_submit_unconditional_idle idleState (some "Monas, Jakarta") none).2.2.2 rfl

/-- C6 counterexample: AutocompleteInput registers a place_changed listener
in its setup effect but returns no cleanup; after unmount the listener is
still registered. -/
theorem C6_counterexample :
    (autocompleteUnmount (autocompleteMountEffect freshAutocomplete)).placeChangedListeners
      = 1 ∧
    (autocompleteUnmount (autocompleteMountEffect freshAutocomplete)).placeChangedListeners
      ≠ 0 := by
  decide

/-- C6 amended: in the Directions component the listener effect and the
route-fetch effect are symmetric: unmounting while the directions_changed
listener is registered (its cleanup pending) and the fetch effect has run
its guarded path removes the listener and detaches the overlay; the
AutocompleteInput place_changed listener has no cleanup and survives
unmount. -/
theorem C6_directions_unmount_cleanup (c : DirectionsLifecycle)
    (hl : c.listenerCleanupPending = true) (hc : c.changeListeners = 1)
    (hf : c.fetchCleanupPending = true) :
    ((directionsUnmount c).changeListeners = 0 ∧
      (directionsUnmount c).overlayAttached = false) ∧
    ∀ a : AutocompleteLifecycle, autocompleteUnmount a = a := by
  refine ⟨?_, fun a => rfl⟩
  simp [directionsUnmount, hl, hc, hf]

/-- C6 witness: unmounting the displayed lifecycle removes the listener and
detaches the overlay. -/
theorem C6_directions_unmount_cleanup_witness :
    (directionsUnmount displayedLifecycle).changeListeners = 0 ∧
    (directionsUnmount displayedLifecycle).overlayAttached = false :=
  (C6_directions_unmount_cleanup displayedLifecycle rfl rfl rfl).1

/-- C7 confirmed: the resolution handler applies unconditionally (no token
or pair comparison guards it), so two responses resolving in sequence both
apply and the state after the second is exactly the state produced by the
last-resolving response, whichever request was issued more recently: the
RouteSet is its routes and SelectedRouteIndex is 0. -/
theorem C7_last_resolved_wins (c : Directions) (r1 r2 : DirectionsResult) :
    applyRouteResponse (applyRouteResponse c r1) r2 = applyRouteResponse c r2 ∧
    (applyRouteResponse c r2).routes = r2.routes ∧
    (applyRouteResponse c r2).routeIndex = 0 := by
  refine ⟨?_, rfl, rfl⟩
  simp [applyRouteResponse]

/-- C8 confirmed: the rendered panel of the selected alternative shows its
summary verbatim, the first comma-delimited segment of the first leg start
and end addresses, and the distance and duration display texts exactly as
supplied; the running example truncates as stated. -/
theorem C8_display_contract (c : Directions) (route : DirectionsRoute)
    (leg : DirectionsLeg)
    (hsel : c.routes[c.routeIndex]? = some route)
    (hleg : route.legs.head? = some leg) :
    renderDirections c = some
      { summaryText := route.summary
        startDisplay := firstSegment leg.start_address
        endDisplay := firstSegment leg.end_address
        distanceText := leg.distance.map TextValue.text
        durationText := leg.duration.map TextValue.text
        otherRoutes := c.routes.map DirectionsRoute.summary } ∧
    firstSegment "123 Main St, Springfield, USA" = "123 Main St" := by
  refine ⟨?_, rfl⟩
  simp [renderDirections, hsel, hleg]

/-- C8 witness: the display contract evaluated on the displayed state with
the second alternative selected. -/
theorem C8_display_contract_witness :
    renderDirections displayedState = some
      { summaryText := routeThamrin.summary
        startDisplay := firstSegment legMonasKotaTua.start_address
        endDisplay := firstSegment legMonasKotaTua.end_address
        distanceText := legMonasKotaTua.distance.map TextValue.text
        durationText := legMonasKotaTua.duration.map TextValue.text
        otherRoutes := displayedState.routes.map DirectionsRoute.summary } ∧
    firstSegment "123 Main St, Springfield, USA" = "123 Main St" :=
  C8_display_contract displayedState routeThamrin legMonasKotaTua rfl rfl

/-- C9 confirmed: the autocomplete place_changed handler invokes the
callback exactly when a place with a truthy (present, non-empty) formatted
address was selected, passing that address; the autocomplete variant input
has no change handler so plain typing invokes nothing; the plain variant
invokes the callback on every change with the raw text. -/
theorem C9_input_callbacks :
    (∀ (place : Option PlaceResult) (a : String),
      placeChangedHandler place = some a ↔
        ∃ p, place = some p ∧ p.formatted_address = some a ∧ a ≠ "") ∧
    (∀ t : String, autocompleteOnChange t = none) ∧
    (∀ t : String, plainOnChange t = some t) := by
  refine ⟨?_, fun _ => rfl, fun _ => rfl⟩
  intro place a
  constructor
  · intro h
    cases place with
    | none => simp [placeChangedHandler] at h
    | some p =>
      simp only [placeChangedHandler] at h
      rcases hfa : p.formatted_address with _ | b
      · rw [hfa] at h
        simp at h
      · rw [hfa] at h
        simp only [] at h
        by_cases hb : b = ""
        · simp [hb] at h
        · simp only [if_neg hb, Option.some.injEq] at h
          exact ⟨p, rfl, by rw [hfa, h], h ▸ hb⟩
  · rintro ⟨p, rfl, hfa, ha⟩
    simp [placeChangedHandler, hfa, ha]

/-- C10 confirmed: rendering is total through guarded indexing: an empty
RouteSet, an out-of-range SelectedRouteIndex, or a selected alternative
with no legs each make the component return null rather than fail. -/
theorem C10_render_total (c : Directions) :
    (c.routes = [] → renderDirections c = none) ∧
    (c.routes.length ≤ c.routeIndex → renderDirections c = none) ∧
    (∀ route, c.routes[c.routeIndex]? = some route → route.legs = [] →
      renderDirections c = none) := by
  refine ⟨?_, ?_, ?_⟩
  · intro h
    unfold renderDirections
    rw [List.getElem?_eq_none (by simp [h])]
  · intro h
    unfold renderDirections
    rw [List.getElem?_eq_none h]
  · intro route hsel hlegs
    unfold renderDirections
    rw [hsel]
    simp [hlegs]

/-- C10 witness: the three null-rendering cases evaluated on concrete
states: empty RouteSet, stale index, and a leg-less selected route. -/
theorem C10_render_total_witness :
    renderDirections idleState = none ∧
    renderDirections staleIndexState = none ∧
    renderDirections leglessState = none :=
  ⟨(C10_render_total idleState).1 rfl,
   (C10_render_total staleIndexState).2.1 (by decide),
   (C10_render_total leglessState).2.2 routeNoLegs rfl rfl⟩

end RouteFinder
